import Mathlib

/-!
Shallow embedding of `src/object_detection_inference_engine.py`, class
`MediaProcessorThread_TimeBased` (the time-based sampling / violation-detection
pipeline), together with theorems settling the specification claims about it.

Modelling conventions:
* `time.perf_counter()` values are rationals (`ℚ`); each loop iteration receives
  the clock value read at line 114 as an explicit input, and each detection box
  carries the clock value read at line 181 for its suppression check.
* The Qt signals become constructors of `Event`; an iteration returns the list
  of events it emitted, in emission order.  Pixmap payloads are dropped; the
  violation-alert payload is abstracted to the violating label (the code's
  string is `"[HH:MM:SS] VIOLATION: <label>"`), and the final-summary payload to
  the list of unique violation labels it joins.  The side effects
  `video_capture.release()` (lines 119 and 222), `time.sleep(1)` (line 120) and
  the reopen attempt `cv2.VideoCapture(...)` (line 122) are recorded as trace
  markers so that the order of recovery actions is visible.
* The environment's behaviour per iteration is an `Input`: the outcome of
  `video_capture.read()` (success with the detections the model would return,
  or failure together with whether a reopen would succeed), the clock value,
  and any cross-thread control calls applied before the iteration.
* A `predict` call that raises is modelled explicitly: the exception escapes
  `run()` (there is no try/finally), so neither the release at line 222 nor the
  final report runs; outcome `Outcome.exc_aborted`.  If the loop body never ran,
  line 223 reads the unbound local `current_time` (NameError): the release at
  line 222 has happened but the report has not; outcome `Outcome.exc_epilogue`.
-/

namespace RaspberryPi5

/-- A media source: `isinstance(self.media_source, int)` distinguishes a live
camera device index from a video-file path string (lines 102, 117). -/
inductive MediaSource
  | camera (idx : Int)
  | file (path : String)
deriving DecidableEq

/-- One detection box, as consumed by the loop at lines 159-197: the label
`self.detection_model.names[int(box.cls[0])]` and the `time.perf_counter()`
value read at line 181 when the box's suppression check runs. -/
structure Det where
  label : String
  alert_time : ℚ
deriving DecidableEq

/-- The violation label list of line 157. -/
def violation_list : List String := ["NO-Mask", "NO-Hardhat", "NO-Safety Vest"]

/-- Observable events: the thread's Qt signal emissions plus trace markers for
the capture-handle actions inside the reconnect branch. -/
inductive Event
  | raw_stream
  | sampled_audit
  | detection_result
  | error_msg (s : String)
  | violation_image
  | violation_alert (label : String)
  | summary_alert (labels : List String)
  | released
  | slept_backoff
  | reopen_attempt (ok : Bool)
deriving DecidableEq

/-- The mutable state of a `MediaProcessorThread_TimeBased` instance: the
attributes set in `__init__` (lines 40-79) and in the `run` preamble
(lines 99-110), plus `cap_open` (whether the capture handle is currently held
open) and `current_time_var` (the Python local `current_time`, unbound before
the first iteration). -/
structure St where
  media_source : MediaSource
  target_processing_fps : ℚ
  sampling_interval_sec : ℚ
  inference_target_fps : Option Int
  thread_active_status : Bool
  object_detection_enabled : Bool
  last_sample_timestamp : ℚ
  raw_frame_count_total : Nat
  sampled_frame_count_total : Nat
  raw_frame_count_1s : Nat
  sampled_frame_count_1s : Nat
  fps_window_start_time : ℚ
  validation_start_time : ℚ
  validation_duration_sec : ℚ
  video_reported_duration_sec : ℚ
  video_end_reached : Bool
  actual_processing_duration_sec : ℚ
  violation_last_alert_time : List (String × ℚ)
  violation_suppression_sec : ℚ
  detected_violation_types : List String
  cap_open : Bool
  current_time_var : Option ℚ
deriving DecidableEq

/-- State after `__init__(media_source, target_processing_fps,
validation_duration_sec)` followed by the `run` preamble: capture opened
(line 99), reported duration detected (lines 102-106), and the three clocks
initialised to `time.perf_counter()` = `start_time` (lines 108-110). -/
def init_state (media_source : MediaSource) (target_processing_fps : ℚ)
    (validation_duration_sec : ℚ) (video_reported_duration_sec : ℚ)
    (start_time : ℚ) : St :=
  { media_source := media_source
    target_processing_fps := target_processing_fps
    sampling_interval_sec := 1 / target_processing_fps
    inference_target_fps := none
    thread_active_status := true
    object_detection_enabled := false
    last_sample_timestamp := start_time
    raw_frame_count_total := 0
    sampled_frame_count_total := 0
    raw_frame_count_1s := 0
    sampled_frame_count_1s := 0
    fps_window_start_time := start_time
    validation_start_time := start_time
    validation_duration_sec := validation_duration_sec
    video_reported_duration_sec := video_reported_duration_sec
    video_end_reached := false
    actual_processing_duration_sec := 0
    violation_last_alert_time := []
    violation_suppression_sec := 1
    detected_violation_types := []
    cap_open := true
    current_time_var := none }

/-- `update_inference_fps` (lines 83-87): if `new_fps > 0`, write the (new)
attribute `inference_target_fps` and recompute `sampling_interval_sec`;
otherwise do nothing.  Note it does not touch `target_processing_fps`. -/
def update_inference_fps (st : St) (new_fps : Int) : St :=
  if new_fps > 0 then
    { st with inference_target_fps := some new_fps
              sampling_interval_sec := 1 / (new_fps : ℚ) }
  else st

/-- `toggle_object_detection` (lines 89-91). -/
def toggle_object_detection (st : St) (activation_state : Bool) : St :=
  { st with object_detection_enabled := activation_state }

/-- `terminate_thread` (lines 93-95). -/
def terminate_thread (st : St) : St :=
  { st with thread_active_status := false }

/-- Dictionary lookup: `self.violation_last_alert_time.get(label, default)`
with the default applied by the caller via `Option.getD`. -/
def alookup : List (String × ℚ) → String → Option ℚ
  | [], _ => none
  | (k, v) :: rest, key => if k = key then some v else alookup rest key

/-- Dictionary store: `self.violation_last_alert_time[label] = t`. -/
def aset : List (String × ℚ) → String → ℚ → List (String × ℚ)
  | [], key, v => [(key, v)]
  | (k, w) :: rest, key, v =>
      if k = key then (key, v) :: rest else (k, w) :: aset rest key v

/-- Python `set.add`: `self.detected_violation_types.add(label)`, modelled on a
duplicate-free list. -/
def add_unique (l : List String) (x : String) : List String :=
  if x ∈ l then l else l ++ [x]

/-- The per-box body of the detection loop, lines 159-197, restricted to its
observable behaviour: drawing on `violation_display_frame` is dropped, the
state updates and the alert emission are kept.  `violation_detected` threads
the Python local `violation_detected_this_frame`. -/
def process_box (st : St) (violation_detected : Bool) (d : Det) :
    St × Bool × List Event :=
  if d.label ∈ violation_list then
    let last_time := (alookup st.violation_last_alert_time d.label).getD 0
    if d.alert_time - last_time ≥ st.violation_suppression_sec then
      ({ st with
           violation_last_alert_time :=
             aset st.violation_last_alert_time d.label d.alert_time
           detected_violation_types :=
             add_unique st.detected_violation_types d.label },
       true, [Event.violation_alert d.label])
    else (st, true, [])
  else (st, violation_detected, [])

/-- The whole box loop of lines 159-197 over all boxes of the result. -/
def process_boxes (st : St) (violation_detected : Bool) :
    List Det → St × Bool × List Event
  | [] => (st, violation_detected, [])
  | d :: ds =>
      let r := process_box st violation_detected d
      let rest := process_boxes r.1 r.2.1 ds
      (rest.1, rest.2.1, r.2.2 ++ rest.2.2)

/-- Outcome of `video_capture.read()` (line 113), enriched with what the rest
of the environment would do this iteration: on success, whether the `predict`
call at line 149 would raise, and the detections it would return; on failure,
whether the reopen at line 122 would leave the capture opened. -/
inductive ReadResult
  | ok (predict_raises : Bool) (dets : List Det)
  | fail (reopen_ok : Bool)
deriving DecidableEq

/-- Result of one iteration of the `while` body (lines 112-220): continue with
the next iteration, leave the loop (`break` at 126, 132 or 220), or abort
`run()` with an uncaught exception from `predict` (line 149). -/
inductive StepRes
  | next (st : St) (events : List Event)
  | brk (st : St) (events : List Event)
  | exc (st : St) (events : List Event)
deriving DecidableEq

/-- The state carried out of an iteration, whichever way it ended. -/
def StepRes.state : StepRes → St
  | .next st _ => st
  | .brk st _ => st
  | .exc st _ => st

/-- The events emitted during an iteration, in emission order. -/
def StepRes.events : StepRes → List Event
  | .next _ events => events
  | .brk _ events => events
  | .exc _ events => events

/-- Lines 205-220, the tail of a successful iteration: the 1-second FPS window
reset and the validation-duration check (whose `break` at line 220 ends the
loop). -/
def finish_iteration (st : St) (events : List Event) (current_time : ℚ) :
    StepRes :=
  let st :=
    if current_time - st.fps_window_start_time ≥ 1 then
      { st with raw_frame_count_1s := 0
                sampled_frame_count_1s := 0
                fps_window_start_time := current_time }
    else st
  if current_time - st.validation_start_time ≥ st.validation_duration_sec then
    .brk st events
  else
    .next st events

/-- One iteration of the `while self.thread_active_status` body, lines 112-220,
given the read outcome and the `time.perf_counter()` value of line 114. -/
def step (st0 : St) (read : ReadResult) (current_time : ℚ) : StepRes :=
  let st := { st0 with current_time_var := some current_time }
  match read with
  | .fail reopen_ok =>
      match st.media_source with
      | .camera _ =>
          -- lines 117-129: emit transient error, release, sleep, reopen
          let st := { st with cap_open := reopen_ok }
          let events :=
            [Event.error_msg "Camera disconnected. Attempting reconnect...",
             Event.released, Event.slept_backoff, Event.reopen_attempt reopen_ok]
          if reopen_ok then
            .next st (events ++ [Event.error_msg "Camera reconnected successfully."])
          else
            .brk st (events ++ [Event.error_msg "Reconnection failed. Stopping thread."])
      | .file _ =>
          -- lines 130-132: end of stream, terminal
          .brk { st with video_end_reached := true } []
  | .ok predict_raises dets =>
      -- lines 135-139: raw frame path
      let st := { st with raw_frame_count_total := st.raw_frame_count_total + 1
                          raw_frame_count_1s := st.raw_frame_count_1s + 1 }
      -- line 142: time-based sampling gate
      if current_time - st.last_sample_timestamp ≥ st.sampling_interval_sec then
        let st := { st with
          last_sample_timestamp :=
            st.last_sample_timestamp + st.sampling_interval_sec
          sampled_frame_count_total := st.sampled_frame_count_total + 1
          sampled_frame_count_1s := st.sampled_frame_count_1s + 1 }
        if st.object_detection_enabled then
          if predict_raises then
            .exc st [Event.raw_stream, Event.sampled_audit]
          else
            let r := process_boxes st false dets
            let events :=
              [Event.raw_stream, Event.sampled_audit, Event.detection_result]
                ++ r.2.2
                ++ (if r.2.1 then [Event.violation_image] else [])
            finish_iteration r.1 events current_time
        else
          finish_iteration st [Event.raw_stream, Event.sampled_audit] current_time
      else
        finish_iteration st [Event.raw_stream] current_time

/-- Which of the two strings the report of lines 257-261 prints as the
termination reason. -/
inductive TerminationReason
  | video_file_ended
  | validation_time_completed
deriving DecidableEq

/-- The contents of the final sampling-validation report, lines 249-262. -/
structure Report where
  validation_duration_sec : ℚ
  actual_processing_duration_sec : ℚ
  video_reported_duration_sec : ℚ
  raw_frame_count_total : Nat
  sampled_frame_count_total : Nat
  drop_ratio : ℚ
  termination_reason : TerminationReason
deriving DecidableEq

/-- The frame-drop-ratio computation of lines 226-231. -/
def drop_ratio (st : St) : ℚ :=
  if st.video_end_reached then 0
  else if st.raw_frame_count_total > 0 then
    1 - (st.sampled_frame_count_total : ℚ) / (st.raw_frame_count_total : ℚ)
  else 0

/-- Result of a whole `run()` given a finite list of environment inputs. -/
inductive Outcome
  | finished (st : St) (trace : List Event) (report : Report)
  | exc_aborted (st : St) (trace : List Event)
  | exc_epilogue (st : St) (trace : List Event)
  | out_of_inputs (st : St) (trace : List Event)
deriving DecidableEq

/-- Lines 222-262, run after the loop exits: release the capture, compute the
actual duration from the local `current_time` (if the body never ran this
local is unbound and line 223 raises, after the release but before any
report), compute the drop ratio, emit the final summary if any violation type
was recorded, and produce the report. -/
def epilogue (st0 : St) (trace : List Event) : Outcome :=
  let st := { st0 with cap_open := false }
  match st.current_time_var with
  | none => .exc_epilogue st (trace ++ [Event.released])
  | some current_time =>
      let st := { st with actual_processing_duration_sec :=
                    current_time - st.validation_start_time }
      let dr := drop_ratio st
      let trace := trace ++ [Event.released]
      let trace :=
        if st.detected_violation_types = [] then trace
        else trace ++ [Event.summary_alert st.detected_violation_types]
      .finished st trace
        { validation_duration_sec := st.validation_duration_sec
          actual_processing_duration_sec := st.actual_processing_duration_sec
          video_reported_duration_sec := st.video_reported_duration_sec
          raw_frame_count_total := st.raw_frame_count_total
          sampled_frame_count_total := st.sampled_frame_count_total
          drop_ratio := dr
          termination_reason :=
            if st.video_end_reached then .video_file_ended
            else .validation_time_completed }

/-- One environment input per potential loop iteration: the cross-thread
control calls landing just before the iteration (the worker polls their flags
once per iteration), the read outcome, and the clock value of line 114. -/
structure Input where
  stop_requested : Bool
  set_fps : Option Int
  set_detection : Option Bool
  read : ReadResult
  current_time : ℚ
deriving DecidableEq

/-- An input with no control calls. -/
def Input.plain (read : ReadResult) (current_time : ℚ) : Input :=
  ⟨false, none, none, read, current_time⟩

/-- Apply the control calls carried by an input. -/
def apply_controls (st : St) (i : Input) : St :=
  let st := if i.stop_requested then terminate_thread st else st
  let st :=
    match i.set_fps with
    | some n => update_inference_fps st n
    | none => st
  match i.set_detection with
  | some b => toggle_object_detection st b
  | none => st

/-- The `while self.thread_active_status` loop driven by a finite input list,
accumulating the trace; when the guard is false or the body breaks, the
epilogue runs; an uncaught `predict` exception aborts with no epilogue; if the
inputs run out while the loop is still live the session is still running. -/
def run_loop : St → List Event → List Input → Outcome
  | st, trace, [] => .out_of_inputs st trace
  | st, trace, i :: rest =>
      let st := apply_controls st i
      if st.thread_active_status then
        match step st i.read i.current_time with
        | .next st' events => run_loop st' (trace ++ events) rest
        | .brk st' events => epilogue st' (trace ++ events)
        | .exc st' events => .exc_aborted st' (trace ++ events)
      else
        epilogue st trace

/-- A whole `run()` from a given state. -/
def run_thread (st : St) (inputs : List Input) : Outcome :=
  run_loop st [] inputs

/-- The final state of an outcome. -/
def Outcome.state : Outcome → St
  | .finished st _ _ => st
  | .exc_aborted st _ => st
  | .exc_epilogue st _ => st
  | .out_of_inputs st _ => st

/-- The full trace of an outcome. -/
def Outcome.trace : Outcome → List Event
  | .finished _ trace _ => trace
  | .exc_aborted _ trace => trace
  | .exc_epilogue _ trace => trace
  | .out_of_inputs _ trace => trace

/-- Whether the session is still running (the loop neither broke nor died). -/
def Outcome.still_running : Outcome → Bool
  | .out_of_inputs _ _ => true
  | _ => false

/-- Whether the final report was produced. -/
def Outcome.has_report : Outcome → Bool
  | .finished _ _ _ => true
  | _ => false

/-- Whether an event is a violation-alert emission. -/
def Event.is_violation_alert : Event → Bool
  | .violation_alert _ => true
  | _ => false

/-- Whether an event is the "Camera reconnected successfully." emission. -/
def Event.is_reconnected_msg : Event → Bool
  | .error_msg s => s = "Camera reconnected successfully."
  | _ => false

/-- Whether an event is a final-summary emission. -/
def Event.is_summary : Event → Bool
  | .summary_alert _ => true
  | _ => false

/-- Number of violation-alert emissions in a trace. -/
def count_violation_alerts (trace : List Event) : Nat :=
  trace.countP Event.is_violation_alert

/-- Number of "Camera reconnected successfully." emissions in a trace. -/
def count_reconnected (trace : List Event) : Nat :=
  trace.countP Event.is_reconnected_msg

/-- Number of final-summary emissions in a trace. -/
def count_summaries (trace : List Event) : Nat :=
  trace.countP Event.is_summary


/-! Supporting lemmas about the iteration body. -/

theorem process_box_state (st : St) (vd : Bool) (d : Det) :
    (process_box st vd d).1 =
      { st with
          violation_last_alert_time := (process_box st vd d).1.violation_last_alert_time
          detected_violation_types := (process_box st vd d).1.detected_violation_types } := by
  simp only [process_box]
  split_ifs <;> rfl

theorem process_boxes_preserved : ∀ (ds : List Det) (st : St) (vd : Bool),
    (process_boxes st vd ds).1.last_sample_timestamp = st.last_sample_timestamp ∧
    (process_boxes st vd ds).1.sampled_frame_count_total = st.sampled_frame_count_total ∧
    (process_boxes st vd ds).1.target_processing_fps = st.target_processing_fps ∧
    (process_boxes st vd ds).1.raw_frame_count_total = st.raw_frame_count_total ∧
    (process_boxes st vd ds).1.video_end_reached = st.video_end_reached ∧
    (process_boxes st vd ds).1.cap_open = st.cap_open ∧
    (process_boxes st vd ds).1.validation_start_time = st.validation_start_time ∧
    (process_boxes st vd ds).1.validation_duration_sec = st.validation_duration_sec ∧
    (process_boxes st vd ds).1.current_time_var = st.current_time_var ∧
    (process_boxes st vd ds).1.thread_active_status = st.thread_active_status ∧
    (process_boxes st vd ds).1.media_source = st.media_source ∧
    (process_boxes st vd ds).1.sampling_interval_sec = st.sampling_interval_sec ∧
    (process_boxes st vd ds).1.violation_suppression_sec = st.violation_suppression_sec ∧
    (process_boxes st vd ds).1.fps_window_start_time = st.fps_window_start_time
  | [], _, _ => ⟨rfl, rfl, rfl, rfl, rfl, rfl, rfl, rfl, rfl, rfl, rfl, rfl, rfl, rfl⟩
  | d :: ds, st, vd => by
      have ih := process_boxes_preserved ds (process_box st vd d).1 (process_box st vd d).2.1
      have hb := process_box_state st vd d
      obtain ⟨i1, i2, i3, i4, i5, i6, i7, i8, i9, i10, i11, i12, i13, i14⟩ := ih
      exact ⟨i1.trans (by rw [hb]), i2.trans (by rw [hb]), i3.trans (by rw [hb]),
             i4.trans (by rw [hb]), i5.trans (by rw [hb]), i6.trans (by rw [hb]),
             i7.trans (by rw [hb]), i8.trans (by rw [hb]), i9.trans (by rw [hb]),
             i10.trans (by rw [hb]), i11.trans (by rw [hb]), i12.trans (by rw [hb]),
             i13.trans (by rw [hb]), i14.trans (by rw [hb])⟩

theorem pb_last (ds : List Det) (st : St) (vd : Bool) :
    (process_boxes st vd ds).1.last_sample_timestamp = st.last_sample_timestamp :=
  (process_boxes_preserved ds st vd).1

theorem pb_sampled (ds : List Det) (st : St) (vd : Bool) :
    (process_boxes st vd ds).1.sampled_frame_count_total = st.sampled_frame_count_total :=
  (process_boxes_preserved ds st vd).2.1

theorem pb_target (ds : List Det) (st : St) (vd : Bool) :
    (process_boxes st vd ds).1.target_processing_fps = st.target_processing_fps :=
  (process_boxes_preserved ds st vd).2.2.1

theorem pb_raw (ds : List Det) (st : St) (vd : Bool) :
    (process_boxes st vd ds).1.raw_frame_count_total = st.raw_frame_count_total :=
  (process_boxes_preserved ds st vd).2.2.2.1

theorem pb_video_end (ds : List Det) (st : St) (vd : Bool) :
    (process_boxes st vd ds).1.video_end_reached = st.video_end_reached :=
  (process_boxes_preserved ds st vd).2.2.2.2.1

theorem pb_cap (ds : List Det) (st : St) (vd : Bool) :
    (process_boxes st vd ds).1.cap_open = st.cap_open :=
  (process_boxes_preserved ds st vd).2.2.2.2.2.1

theorem pb_vstart (ds : List Det) (st : St) (vd : Bool) :
    (process_boxes st vd ds).1.validation_start_time = st.validation_start_time :=
  (process_boxes_preserved ds st vd).2.2.2.2.2.2.1

theorem pb_vdur (ds : List Det) (st : St) (vd : Bool) :
    (process_boxes st vd ds).1.validation_duration_sec = st.validation_duration_sec :=
  (process_boxes_preserved ds st vd).2.2.2.2.2.2.2.1

theorem pb_ctv (ds : List Det) (st : St) (vd : Bool) :
    (process_boxes st vd ds).1.current_time_var = st.current_time_var :=
  (process_boxes_preserved ds st vd).2.2.2.2.2.2.2.2.1

theorem pb_thread (ds : List Det) (st : St) (vd : Bool) :
    (process_boxes st vd ds).1.thread_active_status = st.thread_active_status :=
  (process_boxes_preserved ds st vd).2.2.2.2.2.2.2.2.2.1

theorem pb_media (ds : List Det) (st : St) (vd : Bool) :
    (process_boxes st vd ds).1.media_source = st.media_source :=
  (process_boxes_preserved ds st vd).2.2.2.2.2.2.2.2.2.2.1

theorem pb_interval (ds : List Det) (st : St) (vd : Bool) :
    (process_boxes st vd ds).1.sampling_interval_sec = st.sampling_interval_sec :=
  (process_boxes_preserved ds st vd).2.2.2.2.2.2.2.2.2.2.2.1

theorem pb_suppression (ds : List Det) (st : St) (vd : Bool) :
    (process_boxes st vd ds).1.violation_suppression_sec = st.violation_suppression_sec :=
  (process_boxes_preserved ds st vd).2.2.2.2.2.2.2.2.2.2.2.2.1

theorem finish_iteration_preserved (st : St) (events : List Event) (t : ℚ) :
    (finish_iteration st events t).state.last_sample_timestamp = st.last_sample_timestamp ∧
    (finish_iteration st events t).state.sampled_frame_count_total = st.sampled_frame_count_total ∧
    (finish_iteration st events t).state.target_processing_fps = st.target_processing_fps ∧
    (finish_iteration st events t).state.raw_frame_count_total = st.raw_frame_count_total ∧
    (finish_iteration st events t).state.video_end_reached = st.video_end_reached ∧
    (finish_iteration st events t).state.cap_open = st.cap_open ∧
    (finish_iteration st events t).state.validation_start_time = st.validation_start_time ∧
    (finish_iteration st events t).state.validation_duration_sec = st.validation_duration_sec ∧
    (finish_iteration st events t).state.current_time_var = st.current_time_var ∧
    (finish_iteration st events t).state.thread_active_status = st.thread_active_status ∧
    (finish_iteration st events t).state.media_source = st.media_source ∧
    (finish_iteration st events t).state.detected_violation_types = st.detected_violation_types ∧
    (finish_iteration st events t).state.violation_last_alert_time = st.violation_last_alert_time ∧
    (finish_iteration st events t).state.sampling_interval_sec = st.sampling_interval_sec := by
  simp only [finish_iteration]
  split_ifs <;>
    exact ⟨rfl, rfl, rfl, rfl, rfl, rfl, rfl, rfl, rfl, rfl, rfl, rfl, rfl, rfl⟩

theorem fi_last (st : St) (events : List Event) (t : ℚ) :
    (finish_iteration st events t).state.last_sample_timestamp = st.last_sample_timestamp :=
  (finish_iteration_preserved st events t).1

theorem fi_sampled (st : St) (events : List Event) (t : ℚ) :
    (finish_iteration st events t).state.sampled_frame_count_total = st.sampled_frame_count_total :=
  (finish_iteration_preserved st events t).2.1

theorem fi_target (st : St) (events : List Event) (t : ℚ) :
    (finish_iteration st events t).state.target_processing_fps = st.target_processing_fps :=
  (finish_iteration_preserved st events t).2.2.1

theorem fi_raw (st : St) (events : List Event) (t : ℚ) :
    (finish_iteration st events t).state.raw_frame_count_total = st.raw_frame_count_total :=
  (finish_iteration_preserved st events t).2.2.2.1

theorem fi_video_end (st : St) (events : List Event) (t : ℚ) :
    (finish_iteration st events t).state.video_end_reached = st.video_end_reached :=
  (finish_iteration_preserved st events t).2.2.2.2.1

theorem fi_cap (st : St) (events : List Event) (t : ℚ) :
    (finish_iteration st events t).state.cap_open = st.cap_open :=
  (finish_iteration_preserved st events t).2.2.2.2.2.1

theorem fi_vstart (st : St) (events : List Event) (t : ℚ) :
    (finish_iteration st events t).state.validation_start_time = st.validation_start_time :=
  (finish_iteration_preserved st events t).2.2.2.2.2.2.1

theorem fi_vdur (st : St) (events : List Event) (t : ℚ) :
    (finish_iteration st events t).state.validation_duration_sec = st.validation_duration_sec :=
  (finish_iteration_preserved st events t).2.2.2.2.2.2.2.1

theorem fi_ctv (st : St) (events : List Event) (t : ℚ) :
    (finish_iteration st events t).state.current_time_var = st.current_time_var :=
  (finish_iteration_preserved st events t).2.2.2.2.2.2.2.2.1

theorem fi_thread (st : St) (events : List Event) (t : ℚ) :
    (finish_iteration st events t).state.thread_active_status = st.thread_active_status :=
  (finish_iteration_preserved st events t).2.2.2.2.2.2.2.2.2.1

theorem fi_media (st : St) (events : List Event) (t : ℚ) :
    (finish_iteration st events t).state.media_source = st.media_source :=
  (finish_iteration_preserved st events t).2.2.2.2.2.2.2.2.2.2.1

theorem fi_types (st : St) (events : List Event) (t : ℚ) :
    (finish_iteration st events t).state.detected_violation_types = st.detected_violation_types :=
  (finish_iteration_preserved st events t).2.2.2.2.2.2.2.2.2.2.2.1

theorem fi_map (st : St) (events : List Event) (t : ℚ) :
    (finish_iteration st events t).state.violation_last_alert_time = st.violation_last_alert_time :=
  (finish_iteration_preserved st events t).2.2.2.2.2.2.2.2.2.2.2.2.1

theorem fi_interval (st : St) (events : List Event) (t : ℚ) :
    (finish_iteration st events t).state.sampling_interval_sec = st.sampling_interval_sec :=
  (finish_iteration_preserved st events t).2.2.2.2.2.2.2.2.2.2.2.2.2

theorem finish_iteration_events (st : St) (events : List Event) (t : ℚ) :
    (finish_iteration st events t).events = events := by
  simp only [finish_iteration]
  split_ifs <;> rfl

theorem finish_iteration_brk (st : St) (events : List Event) (t : ℚ)
    (h : t - st.validation_start_time ≥ st.validation_duration_sec) :
    finish_iteration st events t = .brk (finish_iteration st events t).state events := by
  simp only [finish_iteration]
  split_ifs <;> rfl

theorem finish_iteration_next (st : St) (events : List Event) (t : ℚ)
    (h : ¬ t - st.validation_start_time ≥ st.validation_duration_sec) :
    finish_iteration st events t = .next (finish_iteration st events t).state events := by
  simp only [finish_iteration]
  split_ifs <;> rfl

theorem step_fail_camera_reopen (st : St) (idx : Int) (t : ℚ)
    (h : st.media_source = .camera idx) :
    step st (.fail true) t =
      .next { st with current_time_var := some t, cap_open := true }
        [Event.error_msg "Camera disconnected. Attempting reconnect...",
         Event.released, Event.slept_backoff, Event.reopen_attempt true,
         Event.error_msg "Camera reconnected successfully."] := by
  simp [step, h]

theorem step_fail_camera_fatal (st : St) (idx : Int) (t : ℚ)
    (h : st.media_source = .camera idx) :
    step st (.fail false) t =
      .brk { st with current_time_var := some t, cap_open := false }
        [Event.error_msg "Camera disconnected. Attempting reconnect...",
         Event.released, Event.slept_backoff, Event.reopen_attempt false,
         Event.error_msg "Reconnection failed. Stopping thread."] := by
  simp [step, h]

theorem step_fail_file (st : St) (path : String) (reopen_ok : Bool) (t : ℚ)
    (h : st.media_source = .file path) :
    step st (.fail reopen_ok) t =
      .brk { st with current_time_var := some t, video_end_reached := true } [] := by
  simp [step, h]

theorem step_ok_sampled_state (st : St) (p : Bool) (dets : List Det) (t : ℚ)
    (hgate : t - st.last_sample_timestamp ≥ st.sampling_interval_sec) :
    (step st (.ok p dets) t).state.last_sample_timestamp
        = st.last_sample_timestamp + st.sampling_interval_sec ∧
    (step st (.ok p dets) t).state.sampled_frame_count_total
        = st.sampled_frame_count_total + 1 := by
  simp only [step]
  dsimp only
  rw [if_pos hgate]
  split_ifs <;> refine ⟨?_, ?_⟩ <;>
    first
      | rfl
      | rw [fi_last, pb_last]
      | rw [fi_last]
      | rw [fi_sampled, pb_sampled]
      | rw [fi_sampled]

theorem step_ok_unsampled_state (st : St) (p : Bool) (dets : List Det) (t : ℚ)
    (hgate : ¬ t - st.last_sample_timestamp ≥ st.sampling_interval_sec) :
    (step st (.ok p dets) t).state.last_sample_timestamp = st.last_sample_timestamp ∧
    (step st (.ok p dets) t).state.sampled_frame_count_total
        = st.sampled_frame_count_total := by
  simp only [step]
  dsimp only
  rw [if_neg hgate]
  exact ⟨by rw [fi_last], by rw [fi_sampled]⟩

theorem step_ok_preserved (st : St) (p : Bool) (dets : List Det) (t : ℚ) :
    (step st (.ok p dets) t).state.raw_frame_count_total = st.raw_frame_count_total + 1 ∧
    (step st (.ok p dets) t).state.target_processing_fps = st.target_processing_fps ∧
    (step st (.ok p dets) t).state.media_source = st.media_source ∧
    (step st (.ok p dets) t).state.thread_active_status = st.thread_active_status ∧
    (step st (.ok p dets) t).state.current_time_var = some t ∧
    (step st (.ok p dets) t).state.video_end_reached = st.video_end_reached ∧
    (step st (.ok p dets) t).state.validation_start_time = st.validation_start_time ∧
    (step st (.ok p dets) t).state.validation_duration_sec = st.validation_duration_sec ∧
    (step st (.ok p dets) t).state.cap_open = st.cap_open := by
  simp only [step]
  dsimp only
  split_ifs <;>
    refine ⟨?_, ?_, ?_, ?_, ?_, ?_, ?_, ?_, ?_⟩ <;>
    first
      | rfl
      | rw [fi_raw, pb_raw]
      | rw [fi_raw]
      | rw [fi_target, pb_target]
      | rw [fi_target]
      | rw [fi_media, pb_media]
      | rw [fi_media]
      | rw [fi_thread, pb_thread]
      | rw [fi_thread]
      | rw [fi_ctv, pb_ctv]
      | rw [fi_ctv]
      | rw [fi_video_end, pb_video_end]
      | rw [fi_video_end]
      | rw [fi_vstart, pb_vstart]
      | rw [fi_vstart]
      | rw [fi_vdur, pb_vdur]
      | rw [fi_vdur]
      | rw [fi_cap, pb_cap]
      | rw [fi_cap]

theorem step_ok_brk (st : St) (dets : List Det) (t : ℚ)
    (hv : t - st.validation_start_time ≥ st.validation_duration_sec) :
    ∃ st2 evs, step st (.ok false dets) t = .brk st2 evs := by
  simp only [step]
  dsimp only
  split_ifs
  all_goals
    first
      | exact False.elim (by assumption)
      | exact ⟨_, _, finish_iteration_brk _ _ _ (by rw [pb_vstart, pb_vdur]; exact hv)⟩
      | exact ⟨_, _, finish_iteration_brk _ _ _ hv⟩

theorem step_ok_next (st : St) (dets : List Det) (t : ℚ)
    (hv : ¬ t - st.validation_start_time ≥ st.validation_duration_sec) :
    ∃ st2 evs, step st (.ok false dets) t = .next st2 evs := by
  simp only [step]
  dsimp only
  split_ifs
  all_goals
    first
      | exact False.elim (by assumption)
      | exact ⟨_, _, finish_iteration_next _ _ _ (by rw [pb_vstart, pb_vdur]; exact hv)⟩
      | exact ⟨_, _, finish_iteration_next _ _ _ hv⟩

theorem process_box_alerts (st : St) (vd : Bool) (d : Det) :
    ∀ e ∈ (process_box st vd d).2.2, ∃ l, e = Event.violation_alert l := by
  simp only [process_box]
  split_ifs <;> intro e he
  · exact ⟨d.label, by simpa using he⟩
  · exact absurd he (by simp)
  · exact absurd he (by simp)

theorem process_boxes_alerts : ∀ (ds : List Det) (st : St) (vd : Bool),
    ∀ e ∈ (process_boxes st vd ds).2.2, ∃ l, e = Event.violation_alert l
  | [], _, _ => by intro e he; exact absurd he (by simp [process_boxes])
  | d :: ds, st, vd => by
      intro e he
      have hsplit :
          e ∈ (process_box st vd d).2.2 ∨
          e ∈ (process_boxes (process_box st vd d).1 (process_box st vd d).2.1 ds).2.2 := by
        have heq : (process_boxes st vd (d :: ds)).2.2
            = (process_box st vd d).2.2
              ++ (process_boxes (process_box st vd d).1 (process_box st vd d).2.1 ds).2.2 := rfl
        rw [heq] at he
        exact List.mem_append.mp he
      rcases hsplit with h | h
      · exact process_box_alerts st vd d e h
      · exact process_boxes_alerts ds _ _ e h

theorem count_summaries_append (l1 l2 : List Event) :
    count_summaries (l1 ++ l2) = count_summaries l1 + count_summaries l2 := by
  simp [count_summaries, List.countP_append]

theorem count_reconnected_append (l1 l2 : List Event) :
    count_reconnected (l1 ++ l2) = count_reconnected l1 + count_reconnected l2 := by
  simp [count_reconnected, List.countP_append]

theorem count_violation_alerts_append (l1 l2 : List Event) :
    count_violation_alerts (l1 ++ l2)
      = count_violation_alerts l1 + count_violation_alerts l2 := by
  simp [count_violation_alerts, List.countP_append]

theorem countP_summary_process_boxes (ds : List Det) (st : St) (vd : Bool) :
    (process_boxes st vd ds).2.2.countP Event.is_summary = 0 := by
  apply List.countP_eq_zero.mpr
  intro e he
  rcases process_boxes_alerts ds st vd e he with ⟨l, rfl⟩
  simp [Event.is_summary]

theorem countP_reconnected_process_boxes (ds : List Det) (st : St) (vd : Bool) :
    (process_boxes st vd ds).2.2.countP Event.is_reconnected_msg = 0 := by
  apply List.countP_eq_zero.mpr
  intro e he
  rcases process_boxes_alerts ds st vd e he with ⟨l, rfl⟩
  simp [Event.is_reconnected_msg]

theorem image_not_mem_process_boxes (ds : List Det) (st : St) (vd : Bool) :
    Event.violation_image ∉ (process_boxes st vd ds).2.2 := by
  intro hm
  rcases process_boxes_alerts ds st vd _ hm with ⟨l, hl⟩
  exact absurd hl (by simp)

theorem count_summaries_step (st : St) (read : ReadResult) (t : ℚ) :
    count_summaries (step st read t).events = 0 := by
  cases read with
  | fail b =>
      rcases hms : st.media_source with idx | path
      · cases b
        · rw [step_fail_camera_fatal st idx t hms]
          rfl
        · rw [step_fail_camera_reopen st idx t hms]
          rfl
      · rw [step_fail_file st path b t hms]
        rfl
  | ok p dets =>
      simp only [step]
      dsimp only
      split_ifs
      all_goals try rw [finish_iteration_events]
      all_goals
        simp [count_summaries, List.countP_append, List.countP_cons,
              countP_summary_process_boxes, Event.is_summary, StepRes.events]

theorem count_reconnected_step_ok (st : St) (p : Bool) (dets : List Det) (t : ℚ) :
    count_reconnected (step st (.ok p dets) t).events = 0 := by
  simp only [step]
  dsimp only
  split_ifs
  all_goals try rw [finish_iteration_events]
  all_goals
    simp [count_reconnected, List.countP_append, List.countP_cons,
          countP_reconnected_process_boxes, Event.is_reconnected_msg, StepRes.events]

/-! Claim theorems. -/

/-- Claim C1: on every successful-read iteration of the time-based capture
loop, the frame is sampled exactly when
`current_time - last_sample_timestamp >= sampling_interval_sec`; on a sample
the stored deadline advances by exactly one interval
(`last_sample_timestamp + sampling_interval_sec`, not
`current_time + sampling_interval_sec`) and the sampled count increments; on a
non-sampled frame, and on a read-failure iteration, the deadline is
unchanged. -/
theorem sampling_gate_spec (st : St) (p : Bool) (dets : List Det) (b : Bool)
    (t : ℚ) :
    (t - st.last_sample_timestamp ≥ st.sampling_interval_sec →
       (step st (.ok p dets) t).state.last_sample_timestamp
           = st.last_sample_timestamp + st.sampling_interval_sec ∧
       (step st (.ok p dets) t).state.sampled_frame_count_total
           = st.sampled_frame_count_total + 1) ∧
    (¬ t - st.last_sample_timestamp ≥ st.sampling_interval_sec →
       (step st (.ok p dets) t).state.last_sample_timestamp
           = st.last_sample_timestamp ∧
       (step st (.ok p dets) t).state.sampled_frame_count_total
           = st.sampled_frame_count_total) ∧
    (step st (.fail b) t).state.last_sample_timestamp
        = st.last_sample_timestamp := by
  refine ⟨step_ok_sampled_state st p dets t, step_ok_unsampled_state st p dets t, ?_⟩
  rcases hms : st.media_source with idx | path
  · cases b
    · rw [step_fail_camera_fatal st idx t hms]
      rfl
    · rw [step_fail_camera_reopen st idx t hms]
      rfl
  · rw [step_fail_file st path b t hms]
    rfl

/-- Witness for C1: at `t = 1` from the initial state with fps 5
(`interval = 1/5`, deadline `0`), the gate fires and the deadline becomes
exactly `0 + 1/5`. -/
theorem sampling_gate_spec_witness :
    ((1 : ℚ) - (init_state (.camera 0) 5 30 0 0).last_sample_timestamp
        ≥ (init_state (.camera 0) 5 30 0 0).sampling_interval_sec) ∧
    (step (init_state (.camera 0) 5 30 0 0) (.ok false []) 1).state.last_sample_timestamp
        = (init_state (.camera 0) 5 30 0 0).last_sample_timestamp
          + (init_state (.camera 0) 5 30 0 0).sampling_interval_sec :=
  ⟨by show (1 : ℚ) - 0 ≥ 1 / 5; norm_num,
   ((sampling_gate_spec (init_state (.camera 0) 5 30 0 0) false [] false 1).1
      (by show (1 : ℚ) - 0 ≥ 1 / 5; norm_num)).1⟩

/-- Claim C2: on a read failure, a camera source releases the handle, sleeps
the backoff, reopens, and continues running, terminating only if the reopen
itself fails (with a fatal error event); a file source sets the video-end flag
and terminates at once with no retry. -/
theorem read_failure_spec (st : St) (t : ℚ) :
    (∀ idx, st.media_source = .camera idx →
       step st (.fail true) t =
         .next { st with current_time_var := some t, cap_open := true }
           [Event.error_msg "Camera disconnected. Attempting reconnect...",
            Event.released, Event.slept_backoff, Event.reopen_attempt true,
            Event.error_msg "Camera reconnected successfully."] ∧
       step st (.fail false) t =
         .brk { st with current_time_var := some t, cap_open := false }
           [Event.error_msg "Camera disconnected. Attempting reconnect...",
            Event.released, Event.slept_backoff, Event.reopen_attempt false,
            Event.error_msg "Reconnection failed. Stopping thread."]) ∧
    (∀ path b, st.media_source = .file path →
       step st (.fail b) t =
         .brk { st with current_time_var := some t, video_end_reached := true }
           []) := by
  constructor
  · intro idx h
    exact ⟨step_fail_camera_reopen st idx t h, step_fail_camera_fatal st idx t h⟩
  · intro path b h
    exact step_fail_file st path b t h

/-- Witness for C2: a camera session at device 0 whose read fails and whose
reopen succeeds continues with the recovery event sequence. -/
theorem read_failure_spec_witness :
    step (init_state (.camera 0) 5 30 0 0) (.fail true) 1 =
      .next { init_state (.camera 0) 5 30 0 0 with
                current_time_var := some 1, cap_open := true }
        [Event.error_msg "Camera disconnected. Attempting reconnect...",
         Event.released, Event.slept_backoff, Event.reopen_attempt true,
         Event.error_msg "Camera reconnected successfully."] :=
  ((read_failure_spec (init_state (.camera 0) 5 30 0 0) 1).1 0 rfl).1

/-- Claim C10: for `n > 0`, `update_inference_fps n` sets
`sampling_interval_sec` to `1/n`, writes the separate attribute
`inference_target_fps`, and leaves `target_processing_fps` (which no loop
iteration ever writes either), `last_sample_timestamp` and all counters
unchanged. -/
theorem update_fps_spec (st : St) (n : Int) (h : 0 < n) :
    (update_inference_fps st n).sampling_interval_sec = 1 / (n : ℚ) ∧
    (update_inference_fps st n).inference_target_fps = some n ∧
    (update_inference_fps st n).target_processing_fps = st.target_processing_fps ∧
    (update_inference_fps st n).last_sample_timestamp = st.last_sample_timestamp ∧
    (update_inference_fps st n).raw_frame_count_total = st.raw_frame_count_total ∧
    (update_inference_fps st n).sampled_frame_count_total = st.sampled_frame_count_total ∧
    (update_inference_fps st n).raw_frame_count_1s = st.raw_frame_count_1s ∧
    (update_inference_fps st n).sampled_frame_count_1s = st.sampled_frame_count_1s ∧
    ∀ read t, (step st read t).state.target_processing_fps
        = st.target_processing_fps := by
  unfold update_inference_fps
  rw [if_pos h]
  refine ⟨rfl, rfl, rfl, rfl, rfl, rfl, rfl, rfl, ?_⟩
  intro read t
  cases read with
  | ok p dets => exact (step_ok_preserved st p dets t).2.1
  | fail b =>
      rcases hms : st.media_source with idx | path
      · cases b
        · rw [step_fail_camera_fatal st idx t hms]
          rfl
        · rw [step_fail_camera_reopen st idx t hms]
          rfl
      · rw [step_fail_file st path b t hms]
        rfl

/-- Witness for C10: updating to 10 fps from the default state sets the
interval to `1/10`. -/
theorem update_fps_spec_witness :
    (0 : ℤ) < 10 ∧
    (update_inference_fps (init_state (.camera 0) 5 30 0 0) 10).sampling_interval_sec
        = 1 / (10 : ℚ) :=
  ⟨by decide,
   (update_fps_spec (init_state (.camera 0) 5 30 0 0) 10 (by decide)).1⟩

theorem alookup_aset_self : ∀ (m : List (String × ℚ)) (k : String) (v : ℚ),
    alookup (aset m k v) k = some v
  | [], k, v => by simp [aset, alookup]
  | (k', w) :: rest, k, v => by
      by_cases h : k' = k
      · simp [aset, alookup, h]
      · simp [aset, alookup, h, alookup_aset_self rest k v]

/-- Counterexample to claim C8: from a fresh session (empty suppression map),
a violating detection on a sampled, detection-enabled frame whose clock value
is `1/4` (smaller than the 1-second window) produces no alert, because an
absent map entry defaults to `0`, not to "emittable immediately". -/
theorem first_alert_cex :
    count_violation_alerts (run_thread
      (toggle_object_detection (init_state (.camera 0) 5 30 0 0) true)
      [Input.plain (.ok false [⟨"NO-Mask", 1/4⟩]) (1/4)]).trace = 0 ∧
    (run_thread (toggle_object_detection (init_state (.camera 0) 5 30 0 0) true)
      [Input.plain (.ok false [⟨"NO-Mask", 1/4⟩]) (1/4)]).state.sampled_frame_count_total
        = 1 := by
  constructor <;>
    norm_num [run_thread, run_loop, apply_controls, Input.plain, step, init_state,
      toggle_object_detection, finish_iteration, process_boxes, process_box,
      alookup, aset, add_unique, violation_list, epilogue, drop_ratio,
      Outcome.trace, Outcome.state, StepRes.state, StepRes.events,
      count_violation_alerts, Event.is_violation_alert, List.countP_cons]

/-- Claim C8 as amended: an alert is emitted for a detection only when
`alert_time - lastAlertTime >= suppression window` where an absent map entry
reads as `0` (so the invariant holds with that default); consequently the
session's first hit for a fresh label alerts exactly when its clock value is
at least the window, not unconditionally. -/
theorem alert_suppression_amended (st : St) (vd : Bool) (d : Det) :
    ((process_box st vd d).2.2 ≠ [] →
       d.label ∈ violation_list ∧
       d.alert_time - ((alookup st.violation_last_alert_time d.label).getD 0)
           ≥ st.violation_suppression_sec) ∧
    (alookup st.violation_last_alert_time d.label = none →
       d.label ∈ violation_list →
       ((process_box st vd d).2.2 = [Event.violation_alert d.label] ↔
          d.alert_time ≥ st.violation_suppression_sec)) := by
  constructor
  · intro hne
    simp only [process_box] at hne
    split_ifs at hne with h1 h2
    · exact ⟨h1, h2⟩
    · exact absurd rfl hne
    · exact absurd rfl hne
  · intro hnone hlab
    simp only [process_box, hnone, Option.getD_none, if_pos hlab]
    split_ifs with h
    · rw [sub_zero] at h
      simp [h]
    · rw [sub_zero] at h
      simp [h]

/-- Witness for the amended C8: with an empty map, a "NO-Mask" detection at
clock value 2 alerts since `2 >= 1`. -/
theorem alert_suppression_amended_witness :
    ((process_box (init_state (.camera 0) 5 30 0 0) false ⟨"NO-Mask", 2⟩).2.2
        = [Event.violation_alert "NO-Mask"] ↔
      (2 : ℚ) ≥ (init_state (.camera 0) 5 30 0 0).violation_suppression_sec) :=
  (alert_suppression_amended (init_state (.camera 0) 5 30 0 0) false
      ⟨"NO-Mask", 2⟩).2 rfl (by simp [violation_list])

/-- Counterexample to claim C3: hits for "NO-Mask" at `t0 = 1/4`,
`t1 = 9/20`, `t2 = 13/10` on three sampled, detection-enabled frames satisfy
`t1 - t0 < 1` and `t2 - t0 >= 1`, yet exactly one alert is emitted (at `t2`),
not two: the hit at `t0` is itself suppressed because the absent map entry
counts as time `0`. -/
theorem alert_triple_cex :
    ((9 : ℚ)/20 - 1/4 < 1) ∧ ((13 : ℚ)/10 - 1/4 ≥ 1) ∧
    (run_thread (toggle_object_detection (init_state (.camera 0) 5 30 0 0) true)
      [Input.plain (.ok false [⟨"NO-Mask", 1/4⟩]) (1/4),
       Input.plain (.ok false [⟨"NO-Mask", 9/20⟩]) (9/20),
       Input.plain (.ok false [⟨"NO-Mask", 13/10⟩]) (13/10)]).state.sampled_frame_count_total
        = 3 ∧
    count_violation_alerts (run_thread
      (toggle_object_detection (init_state (.camera 0) 5 30 0 0) true)
      [Input.plain (.ok false [⟨"NO-Mask", 1/4⟩]) (1/4),
       Input.plain (.ok false [⟨"NO-Mask", 9/20⟩]) (9/20),
       Input.plain (.ok false [⟨"NO-Mask", 13/10⟩]) (13/10)]).trace = 1 := by
  refine ⟨by norm_num, by norm_num, ?_, ?_⟩ <;>
    norm_num [run_thread, run_loop, apply_controls, Input.plain, step, init_state,
      toggle_object_detection, finish_iteration, process_boxes, process_box,
      alookup, aset, add_unique, violation_list, epilogue, drop_ratio,
      Outcome.trace, Outcome.state, StepRes.state, StepRes.events,
      count_violation_alerts, Event.is_violation_alert, List.countP_cons]

/-- Claim C3 as amended: provided additionally that the first hit itself
clears the default-zero check (`suppression_window <= t0`), hits at
`t0 < t1 < t2` with `t1 - t0 < window <= t2 - t0` give exactly two alerts
(at `t0` and `t2`), and the suppressed hit at `t1` does not update the
stored last-alert timestamp. -/
theorem alert_triple_amended (st : St) (L : String) (t0 t1 t2 : ℚ)
    (hL : L ∈ violation_list)
    (hnone : alookup st.violation_last_alert_time L = none)
    (h0 : st.violation_suppression_sec ≤ t0)
    (h01 : t1 - t0 < st.violation_suppression_sec)
    (h02 : st.violation_suppression_sec ≤ t2 - t0) :
    (process_box st false ⟨L, t0⟩).2.2 = [Event.violation_alert L] ∧
    (process_box (process_box st false ⟨L, t0⟩).1 false ⟨L, t1⟩).2.2 = [] ∧
    alookup (process_box (process_box st false ⟨L, t0⟩).1 false
        ⟨L, t1⟩).1.violation_last_alert_time L = some t0 ∧
    (process_box (process_box (process_box st false ⟨L, t0⟩).1 false ⟨L, t1⟩).1
        false ⟨L, t2⟩).2.2 = [Event.violation_alert L] := by
  have s0 : (process_box st false ⟨L, t0⟩).1.violation_suppression_sec
      = st.violation_suppression_sec := by
    rw [process_box_state st false ⟨L, t0⟩]
  have m0 : (process_box st false ⟨L, t0⟩).1.violation_last_alert_time
      = aset st.violation_last_alert_time L t0 := by
    simp only [process_box]
    rw [if_pos hL, hnone]
    simp only [Option.getD_none, sub_zero]
    rw [if_pos h0]
  have ev0 : (process_box st false ⟨L, t0⟩).2.2 = [Event.violation_alert L] := by
    simp only [process_box]
    rw [if_pos hL, hnone]
    simp only [Option.getD_none, sub_zero]
    rw [if_pos h0]
  set P1 := (process_box st false ⟨L, t0⟩).1 with hP1
  have look1 : alookup P1.violation_last_alert_time L = some t0 := by
    rw [m0]
    exact alookup_aset_self _ _ _
  have st1eq : (process_box P1 false ⟨L, t1⟩).1 = P1 := by
    simp only [process_box]
    rw [if_pos hL, look1]
    simp only [Option.getD_some, s0]
    rw [if_neg (not_le.mpr h01)]
  have ev1 : (process_box P1 false ⟨L, t1⟩).2.2 = [] := by
    simp only [process_box]
    rw [if_pos hL, look1]
    simp only [Option.getD_some, s0]
    rw [if_neg (not_le.mpr h01)]
  have ev2 : (process_box (process_box P1 false ⟨L, t1⟩).1 false ⟨L, t2⟩).2.2
      = [Event.violation_alert L] := by
    rw [st1eq]
    simp only [process_box]
    rw [if_pos hL, look1]
    simp only [Option.getD_some, s0]
    rw [if_pos h02]
  refine ⟨ev0, ev1, ?_, ev2⟩
  rw [st1eq]
  exact look1

/-- Witness for the amended C3: window 1, hits at 1, 3/2, 2 from a fresh
session give alerts at 1 and 2 only. -/
theorem alert_triple_amended_witness :
    (process_box (init_state (.camera 0) 5 30 0 0) false ⟨"NO-Mask", 1⟩).2.2
        = [Event.violation_alert "NO-Mask"] ∧
    (process_box (process_box (init_state (.camera 0) 5 30 0 0) false
        ⟨"NO-Mask", 1⟩).1 false ⟨"NO-Mask", 3/2⟩).2.2 = [] ∧
    alookup (process_box (process_box (init_state (.camera 0) 5 30 0 0) false
        ⟨"NO-Mask", 1⟩).1 false ⟨"NO-Mask", 3/2⟩).1.violation_last_alert_time "NO-Mask"
        = some 1 ∧
    (process_box (process_box (process_box (init_state (.camera 0) 5 30 0 0) false
        ⟨"NO-Mask", 1⟩).1 false ⟨"NO-Mask", 3/2⟩).1 false ⟨"NO-Mask", 2⟩).2.2
        = [Event.violation_alert "NO-Mask"] :=
  alert_triple_amended (init_state (.camera 0) 5 30 0 0) "NO-Mask" 1 (3/2) 2
    (by simp [violation_list]) rfl
    (by show (1 : ℚ) ≤ 1; norm_num)
    (by show (3 : ℚ)/2 - 1 < 1; norm_num)
    (by show (1 : ℚ) ≤ 2 - 1; norm_num)

theorem process_box_flag (st : St) (vd : Bool) (d : Det) :
    (process_box st vd d).2.1 = (vd || decide (d.label ∈ violation_list)) := by
  simp only [process_box]
  split_ifs with h1 h2 <;> simp [h1]

theorem process_boxes_flag : ∀ (ds : List Det) (st : St) (vd : Bool),
    (process_boxes st vd ds).2.1
      = (vd || ds.any fun d => decide (d.label ∈ violation_list))
  | [], st, vd => by simp [process_boxes]
  | d :: ds, st, vd => by
      show (process_boxes (process_box st vd d).1 (process_box st vd d).2.1 ds).2.1 = _
      rw [process_boxes_flag ds, process_box_flag]
      simp [Bool.or_assoc]

/-- Counterexample to claim C4: a sampled, detection-enabled frame whose only
violating detection is suppressed by the cooldown window (last alert at 10,
hit at 21/2, window 1) emits no alert yet still emits the violation-overlay
frame event. -/
theorem violation_image_cex :
    count_violation_alerts (run_thread
      { toggle_object_detection (init_state (.camera 0) 5 30 0 0) true with
          violation_last_alert_time := [("NO-Mask", 10)] }
      [Input.plain (.ok false [⟨"NO-Mask", 21/2⟩]) (21/2)]).trace = 0 ∧
    Event.violation_image ∈ (run_thread
      { toggle_object_detection (init_state (.camera 0) 5 30 0 0) true with
          violation_last_alert_time := [("NO-Mask", 10)] }
      [Input.plain (.ok false [⟨"NO-Mask", 21/2⟩]) (21/2)]).trace := by
  constructor <;>
    norm_num [run_thread, run_loop, apply_controls, Input.plain, step, init_state,
      toggle_object_detection, finish_iteration, process_boxes, process_box,
      alookup, aset, add_unique, violation_list, epilogue, drop_ratio,
      Outcome.trace, Outcome.state, StepRes.state, StepRes.events,
      count_violation_alerts, Event.is_violation_alert, List.countP_cons]

/-- Claim C4 as amended: on a sampled frame with detection enabled, the
violation-overlay frame event is emitted if and only if at least one
detection on the frame carries a violating label — regardless of whether its
alert passed the suppression check. -/
theorem violation_image_iff (st : St) (dets : List Det) (t : ℚ)
    (hdet : st.object_detection_enabled = true)
    (hgate : t - st.last_sample_timestamp ≥ st.sampling_interval_sec) :
    Event.violation_image ∈ (step st (.ok false dets) t).events ↔
      ∃ d ∈ dets, d.label ∈ violation_list := by
  simp only [step]
  dsimp only
  rw [if_pos hgate, if_pos hdet]
  simp only [Bool.false_eq_true, if_false]
  rw [finish_iteration_events]
  constructor
  · intro hm
    rcases List.mem_append.mp hm with h | h
    · rcases List.mem_append.mp h with h' | h'
      · simp at h'
      · exact absurd h' (image_not_mem_process_boxes _ _ _)
    · split_ifs at h with hflag
      · rw [process_boxes_flag] at hflag
        simp only [Bool.false_or, List.any_eq_true, decide_eq_true_eq] at hflag
        exact hflag
      · simp at h
  · intro hex
    apply List.mem_append.mpr
    right
    have hflag : (dets.any fun d => decide (d.label ∈ violation_list)) = true := by
      simp only [List.any_eq_true, decide_eq_true_eq]
      exact hex
    split_ifs with hflag2
    · simp
    · rw [process_boxes_flag] at hflag2
      simp only [Bool.false_or] at hflag2
      exact absurd hflag hflag2

/-- Witness for the amended C4: one violating, suppression-passing detection
on a sampled frame yields the overlay event. -/
theorem violation_image_iff_witness :
    Event.violation_image ∈
      (step (toggle_object_detection (init_state (.camera 0) 5 30 0 0) true)
        (.ok false [⟨"NO-Mask", 2⟩]) 2).events :=
  (violation_image_iff (toggle_object_detection (init_state (.camera 0) 5 30 0 0) true)
      [⟨"NO-Mask", 2⟩] 2 rfl
      (by show (2 : ℚ) - 0 ≥ 1/5; norm_num)).mpr
    ⟨⟨"NO-Mask", 2⟩, by simp, by simp [violation_list]⟩

theorem apply_controls_plain (st : St) (r : ReadResult) (t : ℚ) :
    apply_controls st (Input.plain r t) = st := rfl

theorem run_loop_fail_reopen (st : St) (acc : List Event) (idx : Int) (t : ℚ)
    (rest : List Input) (hms : st.media_source = .camera idx)
    (hact : st.thread_active_status = true) :
    run_loop st acc (Input.plain (.fail true) t :: rest)
      = run_loop { st with current_time_var := some t, cap_open := true }
          (acc ++
            [Event.error_msg "Camera disconnected. Attempting reconnect...",
             Event.released, Event.slept_backoff, Event.reopen_attempt true,
             Event.error_msg "Camera reconnected successfully."]) rest := by
  have h1 : run_loop st acc (Input.plain (.fail true) t :: rest)
      = match step st (.fail true) t with
        | .next st' events => run_loop st' (acc ++ events) rest
        | .brk st' events => epilogue st' (acc ++ events)
        | .exc st' events => .exc_aborted st' (acc ++ events) := by
    simp only [run_loop, apply_controls_plain, hact, if_true]
    rfl
  rw [h1, step_fail_camera_reopen st idx t hms]


theorem run_loop_ok_next (st : St) (acc : List Event) (dets : List Det) (t : ℚ)
    (rest : List Input) (hact : st.thread_active_status = true)
    (hv : ¬ t - st.validation_start_time ≥ st.validation_duration_sec) :
    run_loop st acc (Input.plain (.ok false dets) t :: rest)
      = run_loop (step st (.ok false dets) t).state
          (acc ++ (step st (.ok false dets) t).events) rest := by
  have h1 : run_loop st acc (Input.plain (.ok false dets) t :: rest)
      = match step st (.ok false dets) t with
        | .next st' events => run_loop st' (acc ++ events) rest
        | .brk st' events => epilogue st' (acc ++ events)
        | .exc st' events => .exc_aborted st' (acc ++ events) := by
    simp only [run_loop, apply_controls_plain, hact, if_true]
    rfl
  obtain ⟨st2, evs2, heq⟩ := step_ok_next st dets t hv
  rw [h1, heq]
  rfl

/-- Counterexample to claim C5: three consecutive camera read failures, each
with a successful reopen, followed by a successful read leave the session
running but emit three "Camera reconnected successfully." events, one per
failure — not exactly one. -/
theorem reconnect_three_cex :
    count_reconnected (run_thread (init_state (.camera 0) 5 30 0 0)
      [Input.plain (.fail true) 1, Input.plain (.fail true) 2,
       Input.plain (.fail true) 3, Input.plain (.ok false []) 4]).trace = 3 ∧
    (run_thread (init_state (.camera 0) 5 30 0 0)
      [Input.plain (.fail true) 1, Input.plain (.fail true) 2,
       Input.plain (.fail true) 3, Input.plain (.ok false []) 4]).still_running
      = true := by
  constructor <;>
    (norm_num [run_thread, run_loop, apply_controls, Input.plain, step, init_state,
       finish_iteration, process_boxes, process_box, alookup, aset, add_unique,
       violation_list, epilogue, drop_ratio, Outcome.trace, Outcome.state,
       Outcome.still_running, StepRes.state, StepRes.events,
       count_reconnected, Event.is_reconnected_msg, List.countP_cons]
     try rfl)

/-- Claim C5 as amended: after 3 consecutive camera read failures each
followed by a successful reopen and then a successful read (within the
validation window), the session remains running, frame counting resumes
(raw total increments by one), and exactly one reconnected event is emitted
per failure — three in total for three failures, not one. -/
theorem reconnect_three_amended (st : St) (idx : Int) (t1 t2 t3 t4 : ℚ)
    (hms : st.media_source = .camera idx)
    (hact : st.thread_active_status = true)
    (hv : ¬ t4 - st.validation_start_time ≥ st.validation_duration_sec) :
    count_reconnected (run_thread st
      [Input.plain (.fail true) t1, Input.plain (.fail true) t2,
       Input.plain (.fail true) t3, Input.plain (.ok false []) t4]).trace = 3 ∧
    (run_thread st
      [Input.plain (.fail true) t1, Input.plain (.fail true) t2,
       Input.plain (.fail true) t3, Input.plain (.ok false []) t4]).still_running
      = true ∧
    (run_thread st
      [Input.plain (.fail true) t1, Input.plain (.fail true) t2,
       Input.plain (.fail true) t3, Input.plain (.ok false []) t4]).state.raw_frame_count_total
      = st.raw_frame_count_total + 1 := by
  have hrun : run_thread st
      [Input.plain (.fail true) t1, Input.plain (.fail true) t2,
       Input.plain (.fail true) t3, Input.plain (.ok false []) t4]
      = .out_of_inputs
          (step { st with current_time_var := some t3, cap_open := true }
            (.ok false []) t4).state
          (([] ++
            [Event.error_msg "Camera disconnected. Attempting reconnect...",
             Event.released, Event.slept_backoff, Event.reopen_attempt true,
             Event.error_msg "Camera reconnected successfully."] ++
            [Event.error_msg "Camera disconnected. Attempting reconnect...",
             Event.released, Event.slept_backoff, Event.reopen_attempt true,
             Event.error_msg "Camera reconnected successfully."] ++
            [Event.error_msg "Camera disconnected. Attempting reconnect...",
             Event.released, Event.slept_backoff, Event.reopen_attempt true,
             Event.error_msg "Camera reconnected successfully."]) ++
            (step { st with current_time_var := some t3, cap_open := true }
              (.ok false []) t4).events) := by
    unfold run_thread
    rw [run_loop_fail_reopen st [] idx t1 _ hms hact]
    rw [run_loop_fail_reopen { st with current_time_var := some t1, cap_open := true }
          _ idx t2 _ hms hact]
    rw [run_loop_fail_reopen { st with current_time_var := some t2, cap_open := true }
          _ idx t3 _ hms hact]
    rw [run_loop_ok_next { st with current_time_var := some t3, cap_open := true }
          _ [] t4 _ hact hv]
    rw [run_loop]
  rw [hrun]
  refine ⟨?_, rfl, ?_⟩
  · simp only [Outcome.trace, count_reconnected_append,
      count_reconnected_step_ok]
    rfl
  · exact (step_ok_preserved
      { st with current_time_var := some t3, cap_open := true } false [] t4).1

/-- Witness for the amended C5: the concrete scenario of the counterexample,
obtained from the general statement. -/
theorem reconnect_three_amended_witness :
    count_reconnected (run_thread (init_state (.camera 0) 5 30 0 0)
      [Input.plain (.fail true) 1, Input.plain (.fail true) 2,
       Input.plain (.fail true) 3, Input.plain (.ok false []) 4]).trace = 3 :=
  (reconnect_three_amended (init_state (.camera 0) 5 30 0 0) 0 1 2 3 4 rfl rfl
    (by show ¬ ((4 : ℚ) - 0 ≥ 30); norm_num)).1

theorem epilogue_some (st : St) (acc : List Event) (tc : ℚ)
    (h : st.current_time_var = some tc) :
    epilogue st acc = .finished
      { st with cap_open := false
                actual_processing_duration_sec := tc - st.validation_start_time }
      (if st.detected_violation_types = [] then acc ++ [Event.released]
       else acc ++ [Event.released]
         ++ [Event.summary_alert st.detected_violation_types])
      { validation_duration_sec := st.validation_duration_sec
        actual_processing_duration_sec := tc - st.validation_start_time
        video_reported_duration_sec := st.video_reported_duration_sec
        raw_frame_count_total := st.raw_frame_count_total
        sampled_frame_count_total := st.sampled_frame_count_total
        drop_ratio := drop_ratio st
        termination_reason :=
          if st.video_end_reached then .video_file_ended
          else .validation_time_completed } := by
  simp only [epilogue, h]
  rfl

/-- Claim C6: the reported frame-drop ratio is exactly 0 when the session
ended via end-of-stream (the flag a finite file's failed read sets), together
with termination reason "video file ended", even when fewer frames were
sampled than received; otherwise the ratio is `1 - sampled/raw` when
`raw > 0` and `0` when `raw = 0`, with reason "validation time completed". -/
theorem drop_ratio_spec (st : St) (acc : List Event) (tc : ℚ)
    (h : st.current_time_var = some tc) :
    (∃ st' tr rep, epilogue st acc = .finished st' tr rep ∧
       rep.drop_ratio = drop_ratio st ∧
       rep.termination_reason
         = (if st.video_end_reached then .video_file_ended
            else .validation_time_completed)) ∧
    (st.video_end_reached = true → drop_ratio st = 0) ∧
    (st.video_end_reached = false → 0 < st.raw_frame_count_total →
       drop_ratio st = 1 - (st.sampled_frame_count_total : ℚ)
           / (st.raw_frame_count_total : ℚ)) ∧
    (st.video_end_reached = false → st.raw_frame_count_total = 0 →
       drop_ratio st = 0) ∧
    (∀ path b t', st.media_source = .file path →
       (step st (.fail b) t').state.video_end_reached = true) := by
  refine ⟨⟨_, _, _, epilogue_some st acc tc h, rfl, rfl⟩, ?_, ?_, ?_, ?_⟩
  · intro hv
    simp [drop_ratio, hv]
  · intro hv hr
    simp [drop_ratio, hv, hr]
  · intro hv hr
    simp [drop_ratio, hv, hr]
  · intro path b t' hms
    rw [step_fail_file st path b t' hms]
    rfl

/-- Witness for C6: a session on a file whose read hit end-of-stream, with
4 of 10 raw frames sampled, still reports drop ratio 0 and reason
"video file ended". -/
theorem drop_ratio_spec_witness :
    ({ init_state (.file "video.mp4") 5 30 0 0 with
         video_end_reached := true, raw_frame_count_total := 10,
         sampled_frame_count_total := 4,
         current_time_var := some 2 } : St).video_end_reached = true ∧
    drop_ratio { init_state (.file "video.mp4") 5 30 0 0 with
         video_end_reached := true, raw_frame_count_total := 10,
         sampled_frame_count_total := 4,
         current_time_var := some 2 } = 0 :=
  ⟨rfl,
   (drop_ratio_spec { init_state (.file "video.mp4") 5 30 0 0 with
         video_end_reached := true, raw_frame_count_total := 10,
         sampled_frame_count_total := 4,
         current_time_var := some 2 } [] 2 rfl).2.1 rfl⟩

/-- Counterexample to claim C9: a failing detection-adapter call on a sampled,
detection-enabled frame aborts `run()` with an uncaught exception, skipping
both the capture release and the final report — so not every termination path
runs the shutdown sequence. -/
theorem adapter_failure_cex :
    (run_thread (toggle_object_detection (init_state (.camera 0) 5 30 0 0) true)
      [Input.plain (.ok true []) 1]).has_report = false ∧
    (run_thread (toggle_object_detection (init_state (.camera 0) 5 30 0 0) true)
      [Input.plain (.ok true []) 1]).state.cap_open = true := by
  constructor <;>
    norm_num [run_thread, run_loop, apply_controls, Input.plain, step, init_state,
      toggle_object_detection, finish_iteration, process_boxes, process_box,
      alookup, aset, add_unique, violation_list, epilogue, drop_ratio,
      Outcome.trace, Outcome.state, Outcome.has_report,
      StepRes.state, StepRes.events]

/-- Claim C9 as amended: the four loop-exit termination paths — explicit stop
request, end-of-stream on a file, fatal reconnection failure, and validation
timeout — all run the same shutdown sequence, releasing the capture and
producing the final report (given at least one iteration has run, so the
`current_time` local is bound); an exception from the detection adapter is the
one termination path that bypasses both. -/
theorem termination_release_report (st : St) (tc : ℚ)
    (hct : st.current_time_var = some tc)
    (hact : st.thread_active_status = true) :
    (∀ r t, ∃ st' tr rep,
       run_thread st [⟨true, none, none, r, t⟩] = .finished st' tr rep ∧
       st'.cap_open = false) ∧
    (∀ path b t, st.media_source = .file path →
       ∃ st' tr rep,
         run_thread st [Input.plain (.fail b) t] = .finished st' tr rep ∧
         st'.cap_open = false) ∧
    (∀ idx t, st.media_source = .camera idx →
       ∃ st' tr rep,
         run_thread st [Input.plain (.fail false) t] = .finished st' tr rep ∧
         st'.cap_open = false) ∧
    (∀ t, t - st.validation_start_time ≥ st.validation_duration_sec →
       ∃ st' tr rep,
         run_thread st [Input.plain (.ok false []) t] = .finished st' tr rep ∧
         st'.cap_open = false) := by
  refine ⟨?_, ?_, ?_, ?_⟩
  · intro r t
    have hrun : run_thread st [⟨true, none, none, r, t⟩]
        = epilogue (terminate_thread st) [] := by
      simp only [run_thread, run_loop, apply_controls, terminate_thread]
      rfl
    rw [hrun, epilogue_some (terminate_thread st) [] tc hct]
    exact ⟨_, _, _, rfl, rfl⟩
  · intro path b t hms
    have hrun : run_thread st [Input.plain (.fail b) t]
        = epilogue { st with current_time_var := some t, video_end_reached := true }
            ([] ++ []) := by
      have h0 : run_thread st [Input.plain (.fail b) t]
          = match step st (.fail b) t with
            | .next st2 events => Outcome.out_of_inputs st2 ([] ++ events)
            | .brk st2 events => epilogue st2 ([] ++ events)
            | .exc st2 events => Outcome.exc_aborted st2 ([] ++ events) := by
        simp only [run_thread, run_loop, apply_controls_plain, hact, if_true]
        rfl
      rw [h0, step_fail_file st path b t hms]
    rw [hrun, epilogue_some _ _ t rfl]
    exact ⟨_, _, _, rfl, rfl⟩
  · intro idx t hms
    have hrun : run_thread st [Input.plain (.fail false) t]
        = epilogue { st with current_time_var := some t, cap_open := false }
            ([] ++
             [Event.error_msg "Camera disconnected. Attempting reconnect...",
              Event.released, Event.slept_backoff, Event.reopen_attempt false,
              Event.error_msg "Reconnection failed. Stopping thread."]) := by
      have h0 : run_thread st [Input.plain (.fail false) t]
          = match step st (.fail false) t with
            | .next st2 events => Outcome.out_of_inputs st2 ([] ++ events)
            | .brk st2 events => epilogue st2 ([] ++ events)
            | .exc st2 events => Outcome.exc_aborted st2 ([] ++ events) := by
        simp only [run_thread, run_loop, apply_controls_plain, hact, if_true]
        rfl
      rw [h0, step_fail_camera_fatal st idx t hms]
    rw [hrun, epilogue_some _ _ t rfl]
    exact ⟨_, _, _, rfl, rfl⟩
  · intro t hvt
    obtain ⟨st2, evs, heq⟩ := step_ok_brk st [] t hvt
    have hst2 : st2.current_time_var = some t := by
      have hp := (step_ok_preserved st false [] t).2.2.2.2.1
      rw [heq] at hp
      exact hp
    have hrun : run_thread st [Input.plain (.ok false []) t]
        = epilogue st2 ([] ++ evs) := by
      have h0 : run_thread st [Input.plain (.ok false []) t]
          = match step st (.ok false []) t with
            | .next st3 events => Outcome.out_of_inputs st3 ([] ++ events)
            | .brk st3 events => epilogue st3 ([] ++ events)
            | .exc st3 events => Outcome.exc_aborted st3 ([] ++ events) := by
        simp only [run_thread, run_loop, apply_controls_plain, hact, if_true]
        rfl
      rw [h0, heq]
    rw [hrun, epilogue_some st2 _ t hst2]
    exact ⟨_, _, _, rfl, rfl⟩

/-- Witness for the amended C9: end-of-stream on a file session (one earlier
iteration bound the clock local) releases the capture and yields a report. -/
theorem termination_release_report_witness :
    ∃ st' tr rep,
      run_thread { init_state (.file "video.mp4") 5 30 0 0 with
          current_time_var := some 1 }
        [Input.plain (.fail false) 2] = .finished st' tr rep ∧
      st'.cap_open = false :=
  (termination_release_report
      { init_state (.file "video.mp4") 5 30 0 0 with current_time_var := some 1 }
      1 rfl rfl).2.1 "video.mp4" false 2 rfl

theorem add_unique_nodup (l : List String) (x : String) (h : l.Nodup) :
    (add_unique l x).Nodup := by
  unfold add_unique
  split_ifs with hx
  · exact h
  · simp [List.nodup_append, h, hx]

theorem process_box_nodup (st : St) (vd : Bool) (d : Det)
    (h : st.detected_violation_types.Nodup) :
    (process_box st vd d).1.detected_violation_types.Nodup := by
  simp only [process_box]
  split_ifs
  · exact add_unique_nodup _ _ h
  · exact h
  · exact h

theorem process_boxes_nodup : ∀ (ds : List Det) (st : St) (vd : Bool),
    st.detected_violation_types.Nodup →
    (process_boxes st vd ds).1.detected_violation_types.Nodup
  | [], _, _, h => h
  | d :: ds, st, vd, h =>
      process_boxes_nodup ds (process_box st vd d).1 (process_box st vd d).2.1
        (process_box_nodup st vd d h)

theorem step_nodup (st : St) (read : ReadResult) (t : ℚ)
    (h : st.detected_violation_types.Nodup) :
    (step st read t).state.detected_violation_types.Nodup := by
  cases read with
  | fail b =>
      rcases hms : st.media_source with idx | path
      · cases b
        · rw [step_fail_camera_fatal st idx t hms]
          exact h
        · rw [step_fail_camera_reopen st idx t hms]
          exact h
      · rw [step_fail_file st path b t hms]
        exact h
  | ok p dets =>
      simp only [step]
      dsimp only
      split_ifs
      all_goals
        first
          | exact h
          | (rw [fi_types]
             first
               | exact process_boxes_nodup dets _ false h
               | exact h)

theorem apply_controls_types (st : St) (i : Input) :
    (apply_controls st i).detected_violation_types
      = st.detected_violation_types := by
  rcases i with ⟨s, f, dtog, r, t⟩
  simp only [apply_controls]
  cases f <;> cases dtog <;>
    simp [terminate_thread, toggle_object_detection, update_inference_fps] <;>
    split_ifs <;> rfl

theorem epilogue_finished_inv (st : St) (acc : List Event) (st' : St)
    (tr : List Event) (rep : Report)
    (h : epilogue st acc = .finished st' tr rep) :
    st'.detected_violation_types = st.detected_violation_types ∧
    count_summaries tr = count_summaries acc
      + (if st.detected_violation_types = [] then 0 else 1) ∧
    (∀ ls, Event.summary_alert ls ∈ tr →
       Event.summary_alert ls ∈ acc ∨ ls = st.detected_violation_types) := by
  rcases hc : st.current_time_var with _ | tc
  · simp only [epilogue, hc] at h
    exact Outcome.noConfusion h
  · rw [epilogue_some st acc tc hc] at h
    injection h with h1 h2 h3
    subst h1
    subst h2
    refine ⟨rfl, ?_, ?_⟩
    · split_ifs with hty
      · simp [count_summaries_append]
        rfl
      · simp [count_summaries_append]
        rfl
    · intro ls hm
      split_ifs at hm with hty
      · rcases List.mem_append.mp hm with h' | h'
        · exact Or.inl h'
        · simp at h'
      · rcases List.mem_append.mp hm with h' | h'
        · rcases List.mem_append.mp h' with h'' | h''
          · exact Or.inl h''
          · simp at h''
        · simp at h'
          exact Or.inr h'


theorem summary_not_mem_step (st : St) (read : ReadResult) (t : ℚ) (ls : List String) :
    Event.summary_alert ls ∉ (step st read t).events := by
  intro hm
  have h0 := count_summaries_step st read t
  have := List.countP_eq_zero.mp h0 _ hm
  simp [Event.is_summary] at this

theorem run_loop_finished_inv : ∀ (inputs : List Input) (st : St)
    (acc : List Event) (st' : St) (tr : List Event) (rep : Report),
    run_loop st acc inputs = .finished st' tr rep →
    st.detected_violation_types.Nodup →
    st'.detected_violation_types.Nodup ∧
    count_summaries tr = count_summaries acc
      + (if st'.detected_violation_types = [] then 0 else 1) ∧
    (∀ ls, Event.summary_alert ls ∈ tr →
       Event.summary_alert ls ∈ acc ∨ ls = st'.detected_violation_types)
  | [], st, acc, st', tr, rep => by
      intro h _
      exact Outcome.noConfusion h
  | i :: rest, st, acc, st', tr, rep => by
      intro h hnd
      have hnd1 : (apply_controls st i).detected_violation_types.Nodup := by
        rw [apply_controls_types]
        exact hnd
      simp only [run_loop] at h
      by_cases hact : (apply_controls st i).thread_active_status = true
      · rw [if_pos hact] at h
        rcases hstep : step (apply_controls st i) i.read i.current_time with
          ⟨st2, evs⟩ | ⟨st2, evs⟩ | ⟨st2, evs⟩
        · rw [hstep] at h
          have hnd2 : st2.detected_violation_types.Nodup := by
            have := step_nodup (apply_controls st i) i.read i.current_time hnd1
            rw [hstep] at this
            exact this
          obtain ⟨ih1, ih2, ih3⟩ :=
            run_loop_finished_inv rest st2 (acc ++ evs) st' tr rep h hnd2
          refine ⟨ih1, ?_, ?_⟩
          · rw [ih2, count_summaries_append]
            have hz : count_summaries evs = 0 := by
              have := count_summaries_step (apply_controls st i) i.read i.current_time
              rw [hstep] at this
              exact this
            rw [hz]
            omega
          · intro ls hm
            rcases ih3 ls hm with hin | heq
            · rcases List.mem_append.mp hin with h' | h'
              · exact Or.inl h'
              · exfalso
                have := summary_not_mem_step (apply_controls st i) i.read i.current_time ls
                rw [hstep] at this
                exact this h'
            · exact Or.inr heq
        · rw [hstep] at h
          have hnd2 : st2.detected_violation_types.Nodup := by
            have := step_nodup (apply_controls st i) i.read i.current_time hnd1
            rw [hstep] at this
            exact this
          obtain ⟨e1, e2, e3⟩ := epilogue_finished_inv st2 (acc ++ evs) st' tr rep h
          have hz : count_summaries evs = 0 := by
            have := count_summaries_step (apply_controls st i) i.read i.current_time
            rw [hstep] at this
            exact this
          refine ⟨?_, ?_, ?_⟩
          · rw [e1]
            exact hnd2
          · rw [e2, count_summaries_append, hz, e1]
            omega
          · intro ls hm
            rcases e3 ls hm with hin | heq
            · rcases List.mem_append.mp hin with h' | h'
              · exact Or.inl h'
              · exfalso
                have := summary_not_mem_step (apply_controls st i) i.read i.current_time ls
                rw [hstep] at this
                exact this h'
            · rw [← e1] at heq
              exact Or.inr heq
        · rw [hstep] at h
          exact Outcome.noConfusion h
      · rw [if_neg hact] at h
        obtain ⟨e1, e2, e3⟩ := epilogue_finished_inv _ acc st' tr rep h
        refine ⟨?_, ?_, ?_⟩
        · rw [e1, apply_controls_types]
          exact hnd
        · rw [e2, e1]
        · intro ls hm
          rcases e3 ls hm with hin | heq
          · exact Or.inl hin
          · rw [← e1] at heq
            exact Or.inr heq

/-- Claim C7: per session, the final-summary alert is emitted at most once —
exactly once when the set of detected violation types is non-empty and never
when it is empty — and it lists precisely the set of detected violation
labels, each exactly once (the set is duplicate-free however many alerts a
label produced). -/
theorem final_summary_spec (st : St) (inputs : List Input) (st' : St)
    (tr : List Event) (rep : Report)
    (hnd : st.detected_violation_types.Nodup)
    (hrun : run_thread st inputs = .finished st' tr rep) :
    count_summaries tr = (if st'.detected_violation_types = [] then 0 else 1) ∧
    st'.detected_violation_types.Nodup ∧
    (∀ ls, Event.summary_alert ls ∈ tr → ls = st'.detected_violation_types) := by
  obtain ⟨h1, h2, h3⟩ := run_loop_finished_inv inputs st [] st' tr rep hrun hnd
  refine ⟨by simpa [count_summaries] using h2, h1, ?_⟩
  intro ls hm
  rcases h3 ls hm with hin | heq
  · simp at hin
  · exact heq


/-- Witness for C7: a session stopped by the caller after recording the single
violation type "NO-Mask" emits exactly one final summary listing it. -/
theorem final_summary_spec_witness :
    count_summaries [Event.released, Event.summary_alert ["NO-Mask"]]
      = (if ({ init_state (.camera 0) 5 30 0 0 with
                 thread_active_status := false
                 current_time_var := some 1
                 detected_violation_types := ["NO-Mask"]
                 cap_open := false
                 actual_processing_duration_sec := 1 } : St).detected_violation_types
          = [] then 0 else 1) :=
  (final_summary_spec
    { init_state (.camera 0) 5 30 0 0 with
        current_time_var := some 1
        detected_violation_types := ["NO-Mask"] }
    [⟨true, none, none, .ok false [], 1⟩]
    { init_state (.camera 0) 5 30 0 0 with
        thread_active_status := false
        current_time_var := some 1
        detected_violation_types := ["NO-Mask"]
        cap_open := false
        actual_processing_duration_sec := 1 }
    [Event.released, Event.summary_alert ["NO-Mask"]]
    ⟨30, 1, 0, 0, 0, 0, .validation_time_completed⟩
    (by simp)
    (by norm_num [run_thread, run_loop, apply_controls, terminate_thread,
       epilogue, init_state, drop_ratio])).1

end RaspberryPi5
